import Mathlib

/-!
Shallow embedding of the `@effect-utils/process-pool` library
(`src/errors.ts`, `src/types.ts`, `src/ManagedProcess.ts`, `src/ProcessPoolLive.ts`,
as shipped in the bundled `dist/index.js`).

The pool keeps a `Ref<HashMap<string, ManagedProcessImpl>>`; every public
operation reads that map, possibly updates it, and returns a result.  We model
the map as an association list (`Registry`), each Effect operation as a pure
state-passing function `Registry → result × Registry`, and the Effect error
channel as `Except`.  The OS layer (Node `child_process`) is modelled by an
explicit `ChildProc` state plus explicit outcome parameters (`LaunchOutcome`,
`WriteOutcome`) standing for the asynchronous events the code waits on.
-/

/-- `type ProcessStatus` from `src/types.ts`. -/
inductive ProcessStatus where
  | starting
  | running
  | idle
  | stopping
  | stopped
  | error
deriving DecidableEq, Repr

/-- `interface PoolConfig` from `src/types.ts`.  Durations are opaque to all
pool logic (only their presence is tested), so they are modelled as `Nat`. -/
structure PoolConfig where
  maxConcurrent : Nat
  idleTimeout : Option Nat
  healthCheckInterval : Option Nat
deriving DecidableEq, Repr

/-- `interface ProcessConfig` from `src/types.ts`. -/
structure ProcessConfig where
  command : String
  args : Option (List String)
  cwd : Option String
  env : Option (List (String × String))
deriving DecidableEq, Repr

/-- The three error classes of `src/errors.ts` (`ProcessPoolError`,
`ProcessLimitError`, `ProcessNotFoundError`), one constructor each, with the
same payload fields.  The `cause` of a `ProcessPoolError` is modelled as the
message of the underlying OS error. -/
inductive PoolErr where
  | processPoolError (message : String) (cause : Option String)
  | processLimitError (message : String) (maxConcurrent : Nat) (currentCount : Nat)
  | processNotFoundError (message : String) (processId : String)
deriving DecidableEq, Repr

/-- JavaScript truthiness of a `number | undefined` value such as
`ChildProcess.pid` (absent and `0` are falsy). -/
def jsTruthyNat : Option Nat → Bool
  | none => false
  | some n => decide (n ≠ 0)

/-- JavaScript truthiness of a `string | null` value such as the `signal`
argument of the `exit` event (absent and the empty string are falsy). -/
def jsTruthyStr : Option String → Bool
  | none => false
  | some s => decide (s ≠ "")

/-- State of a Node `ChildProcess` as far as the library observes it:
`pid` (set iff the OS launched the process), the `killed` flag (set once a
signal sent through `ChildProcess.kill` was delivered), whether the process
has exited, and whether a stdin pipe exists (always true for the pool's
`stdio: ['pipe', 'pipe', 'pipe']`). -/
structure ChildProc where
  pid : Option Nat
  killed : Bool
  exited : Bool
  stdinPresent : Bool
deriving DecidableEq, Repr

/-- Node semantics of `ChildProcess.kill(signal)`: once the process has
exited, the internal handle is gone, signal delivery fails (the method
returns `false`) and the `killed` flag is not set; on a live process delivery
succeeds and sets `killed`. -/
def ChildProc.deliverSignal (cp : ChildProc) : ChildProc :=
  if cp.exited then cp else { cp with killed := true }

/-- `class ManagedProcessImpl` (`src/ManagedProcess.ts`): id, config, the
wrapped child process, and the mutable `currentStatus` field. -/
structure ManagedProcessImpl where
  id : String
  config : ProcessConfig
  child : ChildProc
  currentStatus : ProcessStatus
deriving DecidableEq, Repr

/-- The `ManagedProcessImpl` constructor: `currentStatus` starts at
`'starting'` and is set to `'running'` right away when `childProcess.pid` is
already truthy. -/
def ManagedProcessImpl.make (id : String) (config : ProcessConfig)
    (child : ChildProc) : ManagedProcessImpl :=
  { id := id
    config := config
    child := child
    currentStatus :=
      if jsTruthyNat child.pid then ProcessStatus.running else ProcessStatus.starting }

/-- The status computed by the `exit` event listener registered in the
`ManagedProcessImpl` constructor:
`if (signal) 'stopped' else if (code !== 0) 'error' else 'stopped'`. -/
def exitHandlerStatus (code : Option Int) (signal : Option String) : ProcessStatus :=
  if jsTruthyStr signal then ProcessStatus.stopped
  else if code ≠ some 0 then ProcessStatus.error
  else ProcessStatus.stopped

/-- The process exits with `(code, signal)`: the OS marks the child exited and
the `exit` listener updates `currentStatus` accordingly. -/
def ManagedProcessImpl.observeExit (m : ManagedProcessImpl) (code : Option Int)
    (signal : Option String) : ManagedProcessImpl :=
  { m with
    currentStatus := exitHandlerStatus code signal
    child := { m.child with exited := true } }

/-- The `error` event listener registered in the constructor: the status
becomes `'error'`. -/
def ManagedProcessImpl.observeError (m : ManagedProcessImpl) : ManagedProcessImpl :=
  { m with currentStatus := ProcessStatus.error }

/-- The `spawn` event listener registered in the constructor: the status
becomes `'running'`. -/
def ManagedProcessImpl.observeSpawn (m : ManagedProcessImpl) : ManagedProcessImpl :=
  { m with currentStatus := ProcessStatus.running }

/-- Shared body of `ManagedProcessImpl.interrupt` and
`ManagedProcessImpl.kill`: when `childProcess.pid` is truthy and the process
was not already signalled, set `currentStatus` to `'stopping'` and send the
signal; otherwise do nothing.  The two methods differ only in the signal name
(`SIGINT` vs `SIGTERM`), which does not affect the modelled state. -/
def ManagedProcessImpl.signalStep (m : ManagedProcessImpl) : ManagedProcessImpl :=
  if jsTruthyNat m.child.pid && !m.child.killed then
    { m with
      currentStatus := ProcessStatus.stopping
      child := m.child.deliverSignal }
  else m

/-- `ManagedProcessImpl.interrupt()`: an Effect that never reaches a failure,
returning the updated handle. -/
def ManagedProcessImpl.interrupt (m : ManagedProcessImpl) :
    Except PoolErr ManagedProcessImpl :=
  Except.ok m.signalStep

/-- `ManagedProcessImpl.kill()`: same body as `interrupt` with `SIGTERM`. -/
def ManagedProcessImpl.kill (m : ManagedProcessImpl) :
    Except PoolErr ManagedProcessImpl :=
  Except.ok m.signalStep

/-- Message of the stdin-missing failure in `ManagedProcessImpl.write`. -/
def noStdinMsg (id : String) : String :=
  "No stdin available for process " ++ id

/-- Message of the dead-process failure in `ManagedProcessImpl.write`. -/
def deadProcessMsg (id : String) : String :=
  "Cannot write to dead process " ++ id

/-- Message of the OS write failure in `ManagedProcessImpl.write`. -/
def writeFailMsg (id : String) : String :=
  "Failed to write to process " ++ id

/-- Outcome reported by the OS for the asynchronous
`childProcess.stdin.write(data, callback)` call. -/
inductive WriteOutcome where
  | ack
  | writeFailed (errMessage : String)
deriving DecidableEq, Repr

/-- `ManagedProcessImpl.write(data)`: fail when there is no stdin pipe, fail
when `killed` is set or `pid` is falsy, otherwise resolve or fail with the OS
write outcome. -/
def ManagedProcessImpl.write (m : ManagedProcessImpl) (data : String)
    (os : WriteOutcome) : Except PoolErr Unit :=
  if !m.child.stdinPresent then
    Except.error (PoolErr.processPoolError (noStdinMsg m.id) none)
  else if m.child.killed || !(jsTruthyNat m.child.pid) then
    Except.error (PoolErr.processPoolError (deadProcessMsg m.id) none)
  else
    match os with
    | WriteOutcome.ack => Except.ok ()
    | WriteOutcome.writeFailed e =>
        Except.error (PoolErr.processPoolError (writeFailMsg m.id) (some e))

/-- The pool's `Ref<HashMap<string, ManagedProcessImpl>>`, modelled as an
association list. -/
abbrev Registry := List (String × ManagedProcessImpl)

/-- `HashMap.empty()`. -/
def rempty : Registry := []

/-- `HashMap.get(reg, id)`. -/
def rget (reg : Registry) (id : String) : Option ManagedProcessImpl :=
  (reg.find? (fun p => p.1 == id)).map Prod.snd

/-- `HashMap.remove(id)`. -/
def rremove (reg : Registry) (id : String) : Registry :=
  reg.filter (fun p => p.1 != id)

/-- `HashMap.set(id, m)` (insert or replace). -/
def rset (reg : Registry) (id : String) (m : ManagedProcessImpl) : Registry :=
  rremove reg id ++ [(id, m)]

/-- `HashMap.size`. -/
def rsize (reg : Registry) : Nat := reg.length

/-- Message of `ProcessLimitError` as built in `ProcessPoolLive.spawn`. -/
def limitMsg (maxConcurrent currentCount : Nat) : String :=
  "Process pool limit reached. Max: " ++ toString maxConcurrent ++
    ", Current: " ++ toString currentCount

/-- Message of `ProcessNotFoundError` as built in `get`/`kill`/`interrupt`. -/
def notFoundMsg (id : String) : String :=
  "Process not found: " ++ id

/-- Message of the launch failure in `ProcessPoolLive.spawn` (bundled
version): the `error` event fires before the `spawn` event. -/
def launchFailMsg (id errMessage : String) : String :=
  "Failed to spawn process " ++ id ++ ": " ++ errMessage

/-- Outcome of the OS launch that `ProcessPoolLive.spawn` awaits before
inserting: either a pid is assigned (`pid` already set or the `spawn` event),
or the `error` event reports a launch failure. -/
inductive LaunchOutcome where
  | ok (pid : Nat)
  | failed (errMessage : String)
deriving DecidableEq, Repr

/-- Result of one `spawn` call: the Effect result, the registry afterwards,
and whether an OS process creation was attempted (`spawn` from
`child_process` was reached). -/
structure SpawnResult where
  result : Except PoolErr ManagedProcessImpl
  registry : Registry
  osProcessCreated : Bool
deriving Repr

/-- `ProcessPoolLive.spawn(id, processConfig)` (bundled version): read the
registry size; at or above `maxConcurrent` fail with `ProcessLimitError`
carrying the limit and the current count; otherwise create the OS process,
wait for the pid assignment or the launch error, and only then attach the
exit observer and insert the handle. -/
def ProcessPoolLive.spawn (config : PoolConfig) (reg : Registry) (id : String)
    (processConfig : ProcessConfig) (launch : LaunchOutcome) : SpawnResult :=
  let currentSize := rsize reg
  if currentSize ≥ config.maxConcurrent then
    { result := Except.error (PoolErr.processLimitError
        (limitMsg config.maxConcurrent currentSize) config.maxConcurrent currentSize)
      registry := reg
      osProcessCreated := false }
  else
    match launch with
    | LaunchOutcome.failed errMessage =>
        { result := Except.error (PoolErr.processPoolError
            (launchFailMsg id errMessage) (some errMessage))
          registry := reg
          osProcessCreated := true }
    | LaunchOutcome.ok pid =>
        let child : ChildProc :=
          { pid := some pid, killed := false, exited := false, stdinPresent := true }
        let managed := ManagedProcessImpl.make id processConfig child
        { result := Except.ok managed
          registry := rset reg id managed
          osProcessCreated := true }

/-- `ProcessPoolLive` pool operation `get(id)`: look the id up, fail with
`ProcessNotFoundError` when absent.  The registry is returned to make the
(absence of) state change explicit. -/
def ProcessPoolLive.get (reg : Registry) (id : String) :
    Except PoolErr ManagedProcessImpl × Registry :=
  match rget reg id with
  | none => (Except.error (PoolErr.processNotFoundError (notFoundMsg id) id), reg)
  | some m => (Except.ok m, reg)

/-- `ProcessPoolLive` pool operation `kill(id)`: look the id up, fail with
`ProcessNotFoundError` when absent, otherwise run the handle's `kill()` and
remove the entry. -/
def ProcessPoolLive.kill (reg : Registry) (id : String) :
    Except PoolErr Unit × Registry :=
  match rget reg id with
  | none => (Except.error (PoolErr.processNotFoundError (notFoundMsg id) id), reg)
  | some m =>
      match m.kill with
      | Except.error e => (Except.error e, reg)
      | Except.ok _ => (Except.ok (), rremove reg id)

/-- `ProcessPoolLive` pool operation `interrupt(id)`: same shape as `kill`
with the handle's `interrupt()`. -/
def ProcessPoolLive.interrupt (reg : Registry) (id : String) :
    Except PoolErr Unit × Registry :=
  match rget reg id with
  | none => (Except.error (PoolErr.processNotFoundError (notFoundMsg id) id), reg)
  | some m =>
      match m.interrupt with
      | Except.error e => (Except.error e, reg)
      | Except.ok _ => (Except.ok (), rremove reg id)

/-- The `for (const managed of allProcesses) yield* managed.kill()` loop of
`killAllProcesses`: sequence the kills, propagating a failure. -/
def killList : List ManagedProcessImpl → Except PoolErr Unit
  | [] => Except.ok ()
  | m :: rest =>
      match m.kill with
      | Except.error e => Except.error e
      | Except.ok _ => killList rest

/-- `killAllProcesses` helper of `ProcessPoolLive` (also the body of the pool
operation `killAll()`): kill every registered handle, then set the registry
to the empty map. -/
def killAllProcesses (reg : Registry) : Except PoolErr Unit × Registry :=
  match killList (reg.map Prod.snd) with
  | Except.error e => (Except.error e, reg)
  | Except.ok _ => (Except.ok (), rempty)

/-- `ProcessPoolLive` pool operation `size()`. -/
def ProcessPoolLive.size (reg : Registry) : Nat × Registry :=
  (rsize reg, reg)

/-- `ProcessPoolLive` pool operation `has(id)`. -/
def ProcessPoolLive.has (reg : Registry) (id : String) : Bool × Registry :=
  ((rget reg id).isSome, reg)

/-- One pass of the `healthCheck` loop of `ProcessPoolLive`: remove every
entry whose handle status is `'stopped'` or `'error'`. -/
def healthCheckSweep (reg : Registry) : Registry :=
  reg.filter (fun p =>
    !(p.2.currentStatus = ProcessStatus.stopped ∨
      p.2.currentStatus = ProcessStatus.error))

/-- The exit observer attached in `spawn`
(`child.on('exit', ... HashMap.remove(id))`): remove the id, no error when it
is already gone. -/
def exitObserverRemove (reg : Registry) (id : String) : Registry :=
  rremove reg id

/-- One observable pool-level action: the public operations, the exit
observer, and the health-check sweep. -/
inductive PoolOp where
  | spawnOp (id : String) (processConfig : ProcessConfig) (launch : LaunchOutcome)
  | getOp (id : String)
  | killOp (id : String)
  | interruptOp (id : String)
  | killAllOp
  | sizeOp
  | hasOp (id : String)
  | exitObservedOp (id : String)
  | sweepOp

/-- Effect of one pool-level action on the registry. -/
def stepPool (config : PoolConfig) (reg : Registry) : PoolOp → Registry
  | PoolOp.spawnOp id processConfig launch =>
      (ProcessPoolLive.spawn config reg id processConfig launch).registry
  | PoolOp.getOp id => (ProcessPoolLive.get reg id).2
  | PoolOp.killOp id => (ProcessPoolLive.kill reg id).2
  | PoolOp.interruptOp id => (ProcessPoolLive.interrupt reg id).2
  | PoolOp.killAllOp => (killAllProcesses reg).2
  | PoolOp.sizeOp => (ProcessPoolLive.size reg).2
  | PoolOp.hasOp id => (ProcessPoolLive.has reg id).2
  | PoolOp.exitObservedOp id => exitObserverRemove reg id
  | PoolOp.sweepOp => healthCheckSweep reg

/-- Registry after running a sequence of pool-level actions from the empty
pool created by `ProcessPoolLive`. -/
def runPoolOps (config : PoolConfig) (ops : List PoolOp) : Registry :=
  ops.foldl (stepPool config) rempty

/-- A concrete `ProcessConfig`, as used in the repository's tests. -/
def pcfg0 : ProcessConfig :=
  { command := "sleep", args := some ["10"], cwd := none, env := none }

/-- A concrete `PoolConfig` with `maxConcurrent := 1`. -/
def cfg1 : PoolConfig :=
  { maxConcurrent := 1, idleTimeout := none, healthCheckInterval := none }

/-- A concrete live child process (pid assigned, not signalled, not exited). -/
def childLive : ChildProc :=
  { pid := some 42, killed := false, exited := false, stdinPresent := true }

/-- A concrete live managed process handle. -/
def mLive : ManagedProcessImpl := ManagedProcessImpl.make "p1" pcfg0 childLive

/-- A registry holding exactly the live handle `mLive` under id `p1`. -/
def regOne : Registry := rset rempty "p1" mLive

/-- A managed process whose OS process exited on its own with exit code `0`
and no signal: `currentStatus` is `'stopped'`, the child is exited, and the
`killed` flag was never set. -/
def mExited : ManagedProcessImpl :=
  (ManagedProcessImpl.make "p2" pcfg0
    { pid := some 43, killed := false, exited := false, stdinPresent := true }).observeExit
    (some 0) none

theorem rsize_rremove_le (reg : Registry) (id : String) :
    rsize (rremove reg id) ≤ rsize reg := by
  simpa [rsize, rremove] using List.length_filter_le _ reg

theorem find?_rremove_self (reg : Registry) (id : String) :
    (rremove reg id).find? (fun p => p.1 == id) = none := by
  induction reg with
  | nil => rfl
  | cons a t ih =>
    by_cases h : a.1 = id
    · simpa [rremove, List.filter_cons, h] using ih
    · simpa [rremove, List.filter_cons, h, List.find?_cons] using ih

theorem rget_rremove_self (reg : Registry) (id : String) :
    rget (rremove reg id) id = none := by
  simp [rget, find?_rremove_self]

theorem find?_append_of_none {α : Type} (f : α → Bool) (l l' : List α)
    (h : l.find? f = none) : (l ++ l').find? f = l'.find? f := by
  induction l with
  | nil => simp
  | cons a t ih =>
    cases hf : f a with
    | true => simp [List.find?_cons, hf] at h
    | false =>
      rw [List.find?_cons_of_neg _ (by simp [hf])] at h
      rw [List.cons_append, List.find?_cons_of_neg _ (by simp [hf])]
      exact ih h

theorem rget_rset_self (reg : Registry) (id : String) (m : ManagedProcessImpl) :
    rget (rset reg id m) id = some m := by
  simp [rget, rset, find?_append_of_none _ _ _ (find?_rremove_self reg id), List.find?]

theorem rsize_rset_le (reg : Registry) (id : String) (m : ManagedProcessImpl) :
    rsize (rset reg id m) ≤ rsize reg + 1 := by
  simp only [rset, rsize, List.length_append, List.length_cons, List.length_nil]
  have := rsize_rremove_le reg id
  simp only [rsize] at this
  omega

theorem rsize_sweep_le (reg : Registry) :
    rsize (healthCheckSweep reg) ≤ rsize reg := by
  simpa [rsize, healthCheckSweep] using List.length_filter_le _ reg

theorem killList_ok (l : List ManagedProcessImpl) : killList l = Except.ok () := by
  induction l with
  | nil => rfl
  | cons m rest ih => simpa [killList, ManagedProcessImpl.kill] using ih

/-- C8: for every pool state, `killAll()` never fails the caller and leaves
the Registry with size 0 when it returns. -/
theorem killAll_never_fails_and_clears (reg : Registry) :
    (killAllProcesses reg).1 = Except.ok () ∧
    rsize (killAllProcesses reg).2 = 0 := by
  simp [killAllProcesses, killList_ok, rempty, rsize]

/-- C10: the read operations `get(id)`, `has(id)` and `size()` leave the
Registry mapping unchanged whether they succeed or fail, and `has(id)`
returns `true` exactly when `get(id)` succeeds on the same state. -/
theorem read_ops_pure_and_consistent (reg : Registry) (id : String) :
    (ProcessPoolLive.get reg id).2 = reg ∧
    (ProcessPoolLive.has reg id).2 = reg ∧
    (ProcessPoolLive.size reg).2 = reg ∧
    ((ProcessPoolLive.has reg id).1 = true ↔
      ∃ m, (ProcessPoolLive.get reg id).1 = Except.ok m) := by
  refine ⟨?_, rfl, rfl, ?_⟩
  · unfold ProcessPoolLive.get
    cases rget reg id <;> rfl
  · unfold ProcessPoolLive.get ProcessPoolLive.has
    cases h : rget reg id <;> simp [h]

/-- C5: `get`, `kill` and `interrupt` on an id not currently in the Registry
fail with a `ProcessNotFoundError` carrying that id and leave the Registry
unchanged. -/
theorem absent_id_ops_fail_not_found (reg : Registry) (id : String)
    (h : rget reg id = none) :
    ProcessPoolLive.get reg id =
      (Except.error (PoolErr.processNotFoundError (notFoundMsg id) id), reg) ∧
    ProcessPoolLive.kill reg id =
      (Except.error (PoolErr.processNotFoundError (notFoundMsg id) id), reg) ∧
    ProcessPoolLive.interrupt reg id =
      (Except.error (PoolErr.processNotFoundError (notFoundMsg id) id), reg) := by
  unfold ProcessPoolLive.get ProcessPoolLive.kill ProcessPoolLive.interrupt
  simp [h]

/-- Witness for C5: on the empty registry, `get "ghost"` fails with
`ProcessNotFoundError` (evaluated at a concrete input). -/
theorem absent_id_ops_fail_not_found_witness :
    rget rempty "ghost" = none ∧
    ProcessPoolLive.get rempty "ghost" =
      (Except.error (PoolErr.processNotFoundError (notFoundMsg "ghost") "ghost"),
        rempty) :=
  ⟨rfl, (absent_id_ops_fail_not_found rempty "ghost" rfl).1⟩

/-- C4: for an id present in the Registry, pool-level `kill(id)` and
`interrupt(id)` succeed and remove the id before returning, so a subsequent
`has(id)` observes it absent, and a second `kill`/`interrupt` on the same id
fails with `ProcessNotFoundError` (not a signal error). -/
theorem kill_interrupt_remove_before_return (reg : Registry) (id : String)
    (m : ManagedProcessImpl) (h : rget reg id = some m) :
    (ProcessPoolLive.kill reg id).1 = Except.ok () ∧
    rget (ProcessPoolLive.kill reg id).2 id = none ∧
    (ProcessPoolLive.has (ProcessPoolLive.kill reg id).2 id).1 = false ∧
    (ProcessPoolLive.kill (ProcessPoolLive.kill reg id).2 id).1 =
      Except.error (PoolErr.processNotFoundError (notFoundMsg id) id) ∧
    (ProcessPoolLive.interrupt reg id).1 = Except.ok () ∧
    rget (ProcessPoolLive.interrupt reg id).2 id = none ∧
    (ProcessPoolLive.has (ProcessPoolLive.interrupt reg id).2 id).1 = false ∧
    (ProcessPoolLive.interrupt (ProcessPoolLive.interrupt reg id).2 id).1 =
      Except.error (PoolErr.processNotFoundError (notFoundMsg id) id) := by
  unfold ProcessPoolLive.kill ProcessPoolLive.interrupt
  simp [h, ManagedProcessImpl.kill, ManagedProcessImpl.interrupt,
    rget_rremove_self, ProcessPoolLive.has]

/-- Witness for C4: on a registry holding `p1`, `kill "p1"` succeeds and the
entry is gone afterwards. -/
theorem kill_interrupt_remove_witness :
    rget regOne "p1" = some mLive ∧
    (ProcessPoolLive.kill regOne "p1").1 = Except.ok () ∧
    rget (ProcessPoolLive.kill regOne "p1").2 "p1" = none :=
  ⟨rfl, (kill_interrupt_remove_before_return regOne "p1" mLive rfl).1,
    (kill_interrupt_remove_before_return regOne "p1" mLive rfl).2.1⟩

/-- C2: whenever the Registry size is at or above `maxConcurrent`, `spawn`
fails with `ProcessLimitError` carrying `(maxConcurrent, currentCount)`,
creates no OS process, and leaves the Registry unchanged. -/
theorem spawn_at_capacity_fails (config : PoolConfig) (reg : Registry)
    (id : String) (processConfig : ProcessConfig) (launch : LaunchOutcome)
    (h : rsize reg ≥ config.maxConcurrent) :
    (ProcessPoolLive.spawn config reg id processConfig launch).result =
      Except.error (PoolErr.processLimitError
        (limitMsg config.maxConcurrent (rsize reg))
        config.maxConcurrent (rsize reg)) ∧
    (ProcessPoolLive.spawn config reg id processConfig launch).registry = reg ∧
    (ProcessPoolLive.spawn config reg id processConfig launch).osProcessCreated
      = false := by
  unfold ProcessPoolLive.spawn
  simp [h]

/-- Witness for C2: with `maxConcurrent = 1` and one registered process, a
further spawn creates no OS process and the registry keeps its entry. -/
theorem spawn_at_capacity_fails_witness :
    rsize regOne ≥ cfg1.maxConcurrent ∧
    (ProcessPoolLive.spawn cfg1 regOne "x" pcfg0
      (LaunchOutcome.ok 7)).osProcessCreated = false ∧
    (ProcessPoolLive.spawn cfg1 regOne "x" pcfg0 (LaunchOutcome.ok 7)).registry
      = regOne :=
  ⟨by decide,
    (spawn_at_capacity_fails cfg1 regOne "x" pcfg0 (LaunchOutcome.ok 7)
      (by decide)).2.2,
    (spawn_at_capacity_fails cfg1 regOne "x" pcfg0 (LaunchOutcome.ok 7)
      (by decide)).2.1⟩

/-- C3: below capacity, the outcome of `spawn` is determined by the OS launch
confirmation it awaits: a launch failure fails the whole operation with the
Registry unchanged (the id never occupies a slot), and a pid assignment
yields the managed handle, which is then registered under its id. -/
theorem spawn_resolves_with_os_confirmation (config : PoolConfig)
    (reg : Registry) (id : String) (processConfig : ProcessConfig)
    (h : rsize reg < config.maxConcurrent) :
    (∀ errMessage,
      (ProcessPoolLive.spawn config reg id processConfig
          (LaunchOutcome.failed errMessage)).result =
        Except.error (PoolErr.processPoolError (launchFailMsg id errMessage)
          (some errMessage)) ∧
      (ProcessPoolLive.spawn config reg id processConfig
          (LaunchOutcome.failed errMessage)).registry = reg) ∧
    (∀ pid,
      (ProcessPoolLive.spawn config reg id processConfig
          (LaunchOutcome.ok pid)).result =
        Except.ok (ManagedProcessImpl.make id processConfig
          { pid := some pid, killed := false, exited := false,
            stdinPresent := true }) ∧
      rget (ProcessPoolLive.spawn config reg id processConfig
          (LaunchOutcome.ok pid)).registry id =
        some (ManagedProcessImpl.make id processConfig
          { pid := some pid, killed := false, exited := false,
            stdinPresent := true })) := by
  unfold ProcessPoolLive.spawn
  simp [Nat.not_le.mpr h, rget_rset_self]

/-- Witness for C3: below capacity, a concrete failed launch leaves the
registry empty and the id absent. -/
theorem spawn_resolves_with_os_confirmation_witness :
    rsize rempty < cfg1.maxConcurrent ∧
    (ProcessPoolLive.spawn cfg1 rempty "p1" pcfg0
      (LaunchOutcome.failed "ENOENT")).registry = rempty :=
  ⟨by decide,
    ((spawn_resolves_with_os_confirmation cfg1 rempty "p1" pcfg0
      (by decide)).1 "ENOENT").2⟩

theorem stepPool_preserves_cap (config : PoolConfig) (reg : Registry)
    (op : PoolOp) (h : rsize reg ≤ config.maxConcurrent) :
    rsize (stepPool config reg op) ≤ config.maxConcurrent := by
  cases op with
  | spawnOp id processConfig launch =>
    unfold stepPool ProcessPoolLive.spawn
    by_cases hcap : rsize reg ≥ config.maxConcurrent
    · simp [hcap, h]
    · cases launch with
      | failed errMessage => simp [hcap, h]
      | ok pid =>
        have h1 := rsize_rset_le reg id
          (ManagedProcessImpl.make id processConfig
            { pid := some pid, killed := false, exited := false,
              stdinPresent := true })
        have h2 : rsize reg < config.maxConcurrent := Nat.lt_of_not_le hcap
        simp [hcap]
        omega
  | getOp id =>
    unfold stepPool ProcessPoolLive.get
    cases hm : rget reg id <;> simpa [hm]
  | killOp id =>
    unfold stepPool ProcessPoolLive.kill
    cases hm : rget reg id with
    | none => simpa [hm]
    | some m =>
      simp [hm, ManagedProcessImpl.kill]
      exact le_trans (rsize_rremove_le reg id) h
  | interruptOp id =>
    unfold stepPool ProcessPoolLive.interrupt
    cases hm : rget reg id with
    | none => simpa [hm]
    | some m =>
      simp [hm, ManagedProcessImpl.interrupt]
      exact le_trans (rsize_rremove_le reg id) h
  | killAllOp =>
    unfold stepPool killAllProcesses
    simp [killList_ok, rempty, rsize]
  | sizeOp => simpa [stepPool, ProcessPoolLive.size]
  | hasOp id => simpa [stepPool, ProcessPoolLive.has]
  | exitObservedOp id =>
    exact le_trans (rsize_rremove_le reg id) h
  | sweepOp =>
    exact le_trans (rsize_sweep_le reg) h

/-- C1: for every sequence of pool operations (spawn, kill, interrupt,
killAll, the exit observer and the health-check sweep), starting from the
empty pool, the Registry size never exceeds `maxConcurrent`; since every
prefix of a sequence is itself a sequence, the bound holds at every
observable instant. -/
theorem registry_size_le_max_concurrent (config : PoolConfig)
    (ops : List PoolOp) :
    rsize (runPoolOps config ops) ≤ config.maxConcurrent := by
  suffices hstep : ∀ reg, rsize reg ≤ config.maxConcurrent →
      rsize (ops.foldl (stepPool config) reg) ≤ config.maxConcurrent by
    exact hstep rempty (by simp [rempty, rsize])
  induction ops with
  | nil => intro reg hr; exact hr
  | cons op rest ih =>
    intro reg hr
    exact ih _ (stepPool_preserves_cap config reg op hr)

/-- C6: on a process exit event, a (non-empty) signal or a zero exit code
yields status `'stopped'`; a non-zero exit code without a signal yields
status `'error'`; an OS error event yields status `'error'`. -/
theorem exit_and_error_events_set_status (m : ManagedProcessImpl) :
    (∀ (code : Option Int) (s : String), s ≠ "" →
      (m.observeExit code (some s)).currentStatus = ProcessStatus.stopped) ∧
    (∀ signal : Option String,
      (m.observeExit (some 0) signal).currentStatus = ProcessStatus.stopped) ∧
    (∀ (k : Int) (signal : Option String), k ≠ 0 → jsTruthyStr signal = false →
      (m.observeExit (some k) signal).currentStatus = ProcessStatus.error) ∧
    m.observeError.currentStatus = ProcessStatus.error := by
  refine ⟨?_, ?_, ?_, rfl⟩
  · intro code s hs
    simp [ManagedProcessImpl.observeExit, exitHandlerStatus, jsTruthyStr, hs]
  · intro signal
    by_cases hsig : jsTruthyStr signal = true <;>
      simp [ManagedProcessImpl.observeExit, exitHandlerStatus, hsig]
  · intro k signal hk hsig
    simp [ManagedProcessImpl.observeExit, exitHandlerStatus, hsig, hk]

/-- Witness for C6: a concrete handle observing an exit with code `1` and
signal `SIGTERM` ends up `'stopped'`; with code `1` and no signal it ends up
`'error'`. -/
theorem exit_and_error_events_set_status_witness :
    ("SIGTERM" : String) ≠ "" ∧ (1 : Int) ≠ 0 ∧ jsTruthyStr none = false ∧
    (mLive.observeExit (some 1) (some "SIGTERM")).currentStatus =
      ProcessStatus.stopped ∧
    (mLive.observeExit (some 1) none).currentStatus = ProcessStatus.error :=
  ⟨by decide, by decide, rfl,
    (exit_and_error_events_set_status mLive).1 (some 1) "SIGTERM" (by decide),
    (exit_and_error_events_set_status mLive).2.2.1 1 none (by decide) rfl⟩

/-- C7 (amended): `interrupt()` and `kill()` never fail, and they are no-ops
that leave the handle (in particular its status) unchanged when the process
has no pid or was already signalled through `kill()`/`interrupt()`; however,
on a process that has already exited on its own (pid assigned, `killed` flag
never set) they still overwrite the status with `'stopping'`, so `'stopped'`
and `'error'` are terminal only against processes that were signalled or
never acquired a pid. -/
theorem interrupt_kill_noop_when_signaled_or_no_pid (m : ManagedProcessImpl) :
    (∃ m1, m.interrupt = Except.ok m1) ∧
    (∃ m2, m.kill = Except.ok m2) ∧
    ((m.child.killed = true ∨ jsTruthyNat m.child.pid = false) →
      m.interrupt = Except.ok m ∧ m.kill = Except.ok m) := by
  refine ⟨⟨m.signalStep, rfl⟩, ⟨m.signalStep, rfl⟩, ?_⟩
  intro h
  unfold ManagedProcessImpl.interrupt ManagedProcessImpl.kill
    ManagedProcessImpl.signalStep
  rcases h with h | h <;> simp [h]

/-- Witness for C7: a concrete already-signalled handle is returned unchanged
by `interrupt()`. -/
theorem interrupt_kill_noop_witness :
    ({ mLive with child := { mLive.child with killed := true } }
        : ManagedProcessImpl).child.killed = true ∧
    ({ mLive with child := { mLive.child with killed := true } }
        : ManagedProcessImpl).interrupt =
      Except.ok { mLive with child := { mLive.child with killed := true } } :=
  ⟨rfl,
    ((interrupt_kill_noop_when_signaled_or_no_pid
      { mLive with child := { mLive.child with killed := true } }).2.2
      (Or.inl rfl)).1⟩

/-- Counterexample for C7 as stated: `mExited` wraps a process that has
already exited on its own (exit code `0`, never signalled), its status is
`'stopped'`, yet `interrupt()` is not a status-preserving no-op: it moves the
status to `'stopping'`. -/
theorem interrupt_after_self_exit_changes_status :
    mExited.child.exited = true ∧
    mExited.child.killed = false ∧
    mExited.currentStatus = ProcessStatus.stopped ∧
    mExited.interrupt =
      Except.ok { mExited with currentStatus := ProcessStatus.stopping } ∧
    ProcessStatus.stopping ≠ ProcessStatus.stopped :=
  ⟨rfl, rfl, rfl, rfl, by decide⟩

/-- C9: `write(data)` fails when there is no stdin channel; fails when the
process is already known dead (`killed` set or no pid); and otherwise
resolves successfully exactly when the OS acknowledges the write, failing
when the OS reports a write error. -/
theorem write_contract (m : ManagedProcessImpl) (data : String)
    (os : WriteOutcome) :
    (m.child.stdinPresent = false →
      ∃ msg cause, m.write data os =
        Except.error (PoolErr.processPoolError msg cause)) ∧
    (m.child.killed = true ∨ jsTruthyNat m.child.pid = false →
      ∃ msg cause, m.write data os =
        Except.error (PoolErr.processPoolError msg cause)) ∧
    (m.child.stdinPresent = true → m.child.killed = false →
      jsTruthyNat m.child.pid = true →
      ((m.write data os = Except.ok ()) ↔ os = WriteOutcome.ack)) := by
  refine ⟨?_, ?_, ?_⟩
  · intro hstdin
    exact ⟨noStdinMsg m.id, none, by simp [ManagedProcessImpl.write, hstdin]⟩
  · intro hdead
    by_cases hstdin : m.child.stdinPresent
    · refine ⟨deadProcessMsg m.id, none, ?_⟩
      rcases hdead with h | h <;>
        simp [ManagedProcessImpl.write, hstdin, h]
    · exact ⟨noStdinMsg m.id, none,
        by simp [ManagedProcessImpl.write, hstdin]⟩
  · intro hstdin hkilled hpid
    cases os with
    | ack => simp [ManagedProcessImpl.write, hstdin, hkilled, hpid]
    | writeFailed e => simp [ManagedProcessImpl.write, hstdin, hkilled, hpid]

/-- Witness for C9: a concrete live handle resolves an acknowledged write and
a concrete killed handle fails it. -/
theorem write_contract_witness :
    mLive.write "ping" WriteOutcome.ack = Except.ok () :=
  ((write_contract mLive "ping" WriteOutcome.ack).2.2 rfl rfl rfl).mpr rfl
